import Mathlib

/-
Verification of the behavior supervisor, the kids-play interaction state
machine, the patrol and response proximity checks, and the libcamera frame
reader of examples/server/app.py (PeterHellmuth/pidog), as a shallow
embedding in Lean.
-/

set_option linter.unusedVariables false
set_option linter.unreachableTactic false
set_option linter.unusedTactic false

/- ----------------------------------------------------------------- -/
/- Part 1: the ExampleRunner behavior supervisor (app.py 212-269).    -/
/- ----------------------------------------------------------------- -/

/-- Robot commands issued by ExampleRunner.stop (app.py 262-269):
`my_dog.body_stop()`, `my_dog.head_move([[0,0,0]], ...)` and the attempted
`Vilib.camera_close()`. -/
inductive RobotCmd
  | bodyStop
  | headNeutral
  | cameraClose
deriving DecidableEq, Repr

/-- State of the ExampleRunner instance (app.py 212-216): fields `running`,
`thread` and `current_example` of `__init__`.  The model adds two
bookkeeping fields that make thread lifetimes explicit: `alive` is the list
of identifiers of worker threads that have been spawned and have not yet
exited, and `nextId` is the identifier the next spawned thread will get.
The Python object holds at most a reference to one `threading.Thread`; the
`alive` list records which spawned threads are still executing. -/
structure ExampleRunner where
  running : Bool
  thread : Option Nat
  current_example : Option String
  alive : List Nat
  nextId : Nat
deriving DecidableEq, Repr

/-- The freshly constructed runner (app.py 213-216). -/
def ExampleRunner.init : ExampleRunner :=
  { running := false, thread := none, current_example := none,
    alive := [], nextId := 0 }

/-- ExampleRunner.stop (app.py 255-269): sets `running = False`; if a
worker thread is held and alive, joins it with a 2-second timeout and
proceeds regardless of the outcome (the code never re-checks `is_alive`
after the join); clears `thread` and `current_example`; and resets the
robot (`body_stop`, neutral `head_move`, attempted `Vilib.camera_close`).
The join outcome is decided by the environment and passed in as `joinOk`:
`true` when the worker observes the cleared `running` flag and exits
within the timeout (behaviors polling through the interruptible
`self.sleep`, app.py 271-275, do), `false` when the worker is blocked
longer than 2 s without polling the flag (e.g. `run_howling` inside the
blocking `howling` preset, or `wait_all_done` over multi-second queued
choreography) - then the thread reference is dropped while the worker is
still executing, so it stays in `alive`. -/
def ExampleRunner.stop (r : ExampleRunner) (joinOk : Bool) :
    ExampleRunner × List RobotCmd :=
  ({ running := false
     thread := none
     current_example := none
     alive := match r.thread with
              | some t => if joinOk then r.alive.erase t else r.alive
              | none => r.alive
     nextId := r.nextId },
   [RobotCmd.bodyStop, RobotCmd.headNeutral, RobotCmd.cameraClose])

/-- The behaviors of the dispatch chain in ExampleRunner.start
(app.py 226-245), in source order. -/
inductive BehaviorName
  | wakeUp | patrol | rest | pushup | howling
  | balance | response | ballTrack | superDog | kidsPlay
deriving DecidableEq, Repr

/-- Whether `pat` is an initial segment of `l` (helper for the substring
test below). -/
def listPrefixEq : List Char → List Char → Bool
  | [], _ => true
  | _ :: _, [] => false
  | a :: as, b :: bs => a = b && listPrefixEq as bs

/-- Whether `pat` occurs as a contiguous sublist of `l`. -/
def hasSubList (pat : List Char) : List Char → Bool
  | [] => pat.isEmpty
  | c :: tl => listPrefixEq pat (c :: tl) || hasSubList pat tl

/-- Python substring containment `pat in s` as used by the dispatch chain
(`'wake_up' in example_name`, ...). -/
def strContains (s pat : String) : Bool :=
  hasSubList pat.data s.data

/-- The dispatch chain of ExampleRunner.start (app.py 226-245): the first
keyword contained in `name` selects the behavior; if none matches, `target`
stays `None`. -/
def lookupBehavior (name : String) : Option BehaviorName :=
  if strContains name "wake_up" then some BehaviorName.wakeUp
  else if strContains name "patrol" then some BehaviorName.patrol
  else if strContains name "rest" then some BehaviorName.rest
  else if strContains name "pushup" then some BehaviorName.pushup
  else if strContains name "howling" then some BehaviorName.howling
  else if strContains name "balance" then some BehaviorName.balance
  else if strContains name "response" then some BehaviorName.response
  else if strContains name "ball_track" then some BehaviorName.ballTrack
  else if strContains name "super_dog" then some BehaviorName.superDog
  else if strContains name "kids_play" then some BehaviorName.kidsPlay
  else none

/-- ExampleRunner.start (app.py 218-253): if `running`, calls `stop()`
first (with the environment-decided join outcome `joinOk`); then sets
`running = True` and `current_example = example_name`; then resolves the
name through the dispatch chain.  On success it spawns a new worker
thread (recorded with a fresh identifier) and returns
`(True, "Started ...")`; on failure it sets `running = False` (leaving
`current_example` as just assigned) and returns `(False, ...)`.  Note
that after a timed-out join the old worker is still alive when the new
one is spawned, and `running = True` even lets its loop continue. -/
def ExampleRunner.start (r : ExampleRunner) (name : String) (joinOk : Bool) :
    ExampleRunner × Bool × String :=
  let r1 := if r.running then (r.stop joinOk).1 else r
  let r2 := { r1 with running := true, current_example := some name }
  match lookupBehavior name with
  | some _ =>
      ({ r2 with thread := some r2.nextId,
                 alive := r2.nextId :: r2.alive,
                 nextId := r2.nextId + 1 },
       true, "Started " ++ name)
  | none =>
      ({ r2 with running := false },
       false, "Example not supported for internal execution yet")

/-- The `try/except` boundary wrapped around the body of every `run_*`
method (e.g. app.py 311-344 for patrol, 698-849 for kids_play): when the
body raises `err`, the handler prints the error and the traceback and the
thread function returns; when the body returns normally nothing is logged.
Either way the worker thread `tid` exits (leaves `alive`) and no other
field of the runner is touched - in particular `running` is not reset.
The result carries the runner state, the log lines emitted, and whether
the exception propagated out of the thread function (it never does). -/
def ExampleRunner.taskExit (r : ExampleRunner) (tid : Nat)
    (err : Option String) : ExampleRunner × List String × Bool :=
  ({ r with alive := r.alive.erase tid },
   (match err with
    | some m => ["Error: " ++ m]
    | none => []),
   false)

/-- One external operation on the supervisor: a `POST /examples/run`
(ExampleRunner.start) or a `POST /examples/stop` (ExampleRunner.stop),
each tagged with the environment-decided outcome of the join that the
operation performs if a worker is alive. -/
inductive RunnerOp
  | startOp (name : String) (joinOk : Bool)
  | stopOp (joinOk : Bool)
deriving DecidableEq, Repr

/-- The join outcome carried by an operation. -/
def RunnerOp.joinOk : RunnerOp → Bool
  | RunnerOp.startOp _ j => j
  | RunnerOp.stopOp j => j

/-- Apply one operation to the runner state. -/
def execOp (r : ExampleRunner) : RunnerOp → ExampleRunner
  | RunnerOp.startOp name j => (r.start name j).1
  | RunnerOp.stopOp j => (r.stop j).1

/-- Run a sequence of start/stop operations from the initial runner. -/
def execOps (ops : List RunnerOp) : ExampleRunner :=
  ops.foldl execOp ExampleRunner.init

/-- Structural invariant tying the model bookkeeping to the Python object:
every alive worker is the one recorded in `thread` and carries an
identifier below `nextId`; at most one worker is alive; when the runner is
not running no thread reference is held; and when no thread reference is
held no worker is alive. -/
def RunnerInv (r : ExampleRunner) : Prop :=
  (∀ t ∈ r.alive, r.thread = some t ∧ t < r.nextId)
  ∧ r.alive.length ≤ 1
  ∧ (r.running = false → r.thread = none)
  ∧ (r.thread = none → r.alive = [])

/-- The part of the supervisor invariant that holds regardless of join
outcomes: a runner that is not running holds no thread reference (both
stop and a rejected start clear or never set it). -/
def RunnerWeakInv (r : ExampleRunner) : Prop :=
  r.running = false → r.thread = none

/- ----------------------------------------------------------------- -/
/- Part 2: the kids_play interaction state machine (app.py 698-849).  -/
/- ----------------------------------------------------------------- -/

/-- The four values of the `state` variable of run_kids_play
(app.py 711: SLEEP, AWAKE, SUPERMAN, INTERACTING). -/
inductive KState
  | sleep | awake | superman | interacting
deriving DecidableEq, Repr

/-- The loop-carried variables of run_kids_play (app.py 711-718):
`state`, `state_timer`, `last_doze_time`, `last_sound_time`, and the two
superman hysteresis flags `upflag` and `downflag`.  Times are modelled as
rationals (Python floats from time.time()). -/
structure KPState where
  state : KState
  stateTimer : Rat
  lastDozeTime : Rat
  lastSoundTime : Rat
  upflag : Bool
  downflag : Bool
deriving DecidableEq, Repr

/-- The sensor readings polled at the top of one loop iteration of
run_kids_play (app.py 728-738): `current_time`, `ax = accData[0]`,
`is_touched = (dual_touch.read() != 'N')`, `distance = read_distance()`,
and `sound_dir` (0 when no sound is detected). -/
structure KPInput where
  t : Rat
  ax : Int
  isTouched : Bool
  distance : Rat
  soundDir : Int
deriving DecidableEq, Repr

/-- The superman (lift/drop) detection block of run_kids_play
(app.py 740-765), with ACC_LIFT_THRESH = -20000 and
ACC_LAND_THRESH = -10000, translated statement by statement: the first
block runs when `ax < ACC_LIFT_THRESH` (arms `upflag`; if `downflag` is
armed, a SUPERMAN state lands back to AWAKE and `downflag` clears); the
second block runs when `ax > ACC_LAND_THRESH` (if `upflag` is armed, a
non-SUPERMAN state becomes SUPERMAN and `upflag` clears; then `downflag`
is armed). -/
def supermanUpdate (s : KPState) (ax : Int) : KPState :=
  let s :=
    if ax < -20000 then
      let s := if s.upflag = false then { s with upflag := true } else s
      if s.downflag = true then
        let s := if s.state = KState.superman then { s with state := KState.awake } else s
        { s with downflag := false }
      else s
    else s
  if ax > -10000 then
    let s :=
      if s.upflag = true then
        let s := if s.state ≠ KState.superman then { s with state := KState.superman } else s
        { s with upflag := false }
      else s
    if s.downflag = false then { s with downflag := true } else s
  else s

/-- The STATE LOGIC section of run_kids_play (app.py 788-842): in SLEEP,
the doze animation replays when more than 0.2 s have passed since
`last_doze_time`, and a touch wakes the robot into INTERACTING for 5 s
(also setting `last_sound_time`); in AWAKE, the triggers are evaluated in
source order: proximity (`distance > 1 and distance < DIST_THRESH` with
DIST_THRESH = 10, INTERACTING for 2.5 s), then touch (INTERACTING for
2 s), then sound (`sound_dir != 0` and more than 2 s since
`last_sound_time`, INTERACTING for 2 s and `last_sound_time` updated). -/
def stateLogic (s : KPState) (i : KPInput) : KPState :=
  if s.state = KState.sleep then
    let s := if 1/5 < i.t - s.lastDozeTime then { s with lastDozeTime := i.t } else s
    if i.isTouched = true then
      { s with state := KState.interacting, stateTimer := i.t + 5,
               lastSoundTime := i.t }
    else s
  else if s.state = KState.awake then
    if 1 < i.distance ∧ i.distance < 10 then
      { s with state := KState.interacting, stateTimer := i.t + 5/2 }
    else if i.isTouched = true then
      { s with state := KState.interacting, stateTimer := i.t + 2 }
    else if i.soundDir ≠ 0 ∧ 2 < i.t - s.lastSoundTime then
      { s with lastSoundTime := i.t, state := KState.interacting,
               stateTimer := i.t + 2 }
    else s
  else s

/-- One full iteration of the run_kids_play loop (app.py 727-844): the
superman detector runs first; if the state is then SUPERMAN the iteration
ends (`continue`, app.py 768-770); an INTERACTING state whose deadline has
not elapsed also ends the iteration (app.py 784-786), while an elapsed
deadline reverts the state to AWAKE (app.py 779-783) and falls through to
the state logic; otherwise the state logic runs. -/
def kidsPlayTick (s : KPState) (i : KPInput) : KPState :=
  let s1 := supermanUpdate s i.ax
  if s1.state = KState.superman then s1
  else if s1.state = KState.interacting then
    if s1.stateTimer < i.t then stateLogic { s1 with state := KState.awake } i
    else s1
  else stateLogic s1 i

/- ----------------------------------------------------------------- -/
/- Part 3: patrol and response proximity checks.                      -/
/- ----------------------------------------------------------------- -/

/-- The danger test of run_patrol (app.py 320-322): the loop reads
`distance = round(my_dog.read_distance(), 2)` (the argument here is that
already-rounded reading) and enters danger mode exactly when
`distance > 0 and distance < DANGER_DISTANCE` with DANGER_DISTANCE = 15. -/
def patrolDangerCheck (distance : Rat) : Bool :=
  decide (0 < distance ∧ distance < 15)

/-- The branch selected by one cycle of run_response (app.py 513-537):
alert when `dist < 15 and dist > 1`; otherwise relax when the touch sensor
reads something other than N (the head-buffer cap only gates the actions
inside this branch, not its selection); otherwise calm. -/
inductive RespBranch
  | alert | relax | calm
deriving DecidableEq, Repr

/-- Branch selection of the run_response cycle (app.py 513-537). -/
def responseBranch (dist : Rat) (touched : Bool) : RespBranch :=
  if dist < 15 ∧ 1 < dist then RespBranch.alert
  else if touched = true then RespBranch.relax
  else RespBranch.calm

/- ----------------------------------------------------------------- -/
/- Part 4: the libcamera frame reader (app.py 131-157).               -/
/- ----------------------------------------------------------------- -/

/-- Position of the first occurrence of the two-byte pattern `x y` in a
byte list: `bytes_buffer.find(bytes([x, y]))` (app.py 144-145), with
`none` for Python's -1. -/
def findMarker (x y : Nat) : List Nat → Option Nat
  | [] => none
  | [_] => none
  | a :: b :: tl =>
      if a = x ∧ b = y then some 0
      else (findMarker x y (b :: tl)).map (· + 1)

/-- State of CameraWrapper._update_libcamera between chunk reads
(app.py 131-157): the accumulation buffer `bytes_buffer` and the published
`latest_frame`. -/
structure CamState where
  bytes_buffer : List Nat
  latest_frame : Option (List Nat)
deriving DecidableEq, Repr

/-- One iteration of the _update_libcamera loop on a newly read chunk
(app.py 138-154): append the chunk to the buffer, search once for the
JPEG start marker FF D8 (255 216) and end marker FF D9 (255 217); if both
are found and the start precedes the end, publish `bytes_buffer[a:b+2]` as
the latest frame and keep `bytes_buffer[b+2:]`; if both are found and the
end comes first, keep `bytes_buffer[a:]` (discard the garbage) and publish
nothing; otherwise keep the whole buffer.  The second component is the
frame published by this iteration, if any. -/
def camStep (st : CamState) (chunk : List Nat) : CamState × Option (List Nat) :=
  let buf := st.bytes_buffer ++ chunk
  match findMarker 255 216 buf, findMarker 255 217 buf with
  | some a, some b =>
      if a < b then
        let jpg := (buf.drop a).take (b + 2 - a)
        ({ bytes_buffer := buf.drop (b + 2), latest_frame := some jpg }, some jpg)
      else
        ({ bytes_buffer := buf.drop a, latest_frame := st.latest_frame }, none)
  | _, _ => ({ bytes_buffer := buf, latest_frame := st.latest_frame }, none)

/-- Run the reader over a sequence of chunk reads, collecting every frame
published along the way.  A chunk sequence ending means the next read
returns no data and the loop breaks (app.py 139-140). -/
def camRun (st : CamState) : List (List Nat) → CamState × List (List Nat)
  | [] => (st, [])
  | c :: cs =>
      let p := camStep st c
      let q := camRun p.1 cs
      (q.1, (match p.2 with | some j => [j] | none => []) ++ q.2)

/-- The byte stream of the frame-extraction test scenario:
garbage (10 20), a stray end marker FF D9, a start marker FF D8, the
payload (61 62 63), an end marker FF D9, and trailing bytes (6D). -/
def testStream : List Nat :=
  [16, 32, 255, 217, 255, 216, 97, 98, 99, 255, 217, 109]

/- ----------------------------------------------------------------- -/
/- Theorems.                                                          -/
/- ----------------------------------------------------------------- -/

@[simp] theorem stop_fst_running (r : ExampleRunner) (j : Bool) :
    (r.stop j).1.running = false := rfl

@[simp] theorem stop_fst_thread (r : ExampleRunner) (j : Bool) :
    (r.stop j).1.thread = none := rfl

@[simp] theorem stop_fst_current (r : ExampleRunner) (j : Bool) :
    (r.stop j).1.current_example = none := rfl

@[simp] theorem stop_fst_nextId (r : ExampleRunner) (j : Bool) :
    (r.stop j).1.nextId = r.nextId := rfl

@[simp] theorem stop_snd (r : ExampleRunner) (j : Bool) :
    (r.stop j).2 = [RobotCmd.bodyStop, RobotCmd.headNeutral, RobotCmd.cameraClose] := rfl

theorem runnerInv_init : RunnerInv ExampleRunner.init := by
  refine ⟨?_, ?_, ?_, ?_⟩ <;> simp [ExampleRunner.init, RunnerInv]

theorem stop_alive_nil (r : ExampleRunner) (h : RunnerInv r) :
    (r.stop true).1.alive = [] := by
  obtain ⟨h1, h2, h3, h4⟩ := h
  simp only [ExampleRunner.stop]
  cases hth : r.thread with
  | none => simpa using h4 hth
  | some t =>
      cases ha : r.alive with
      | nil => simp
      | cons a as =>
          have hmem : a ∈ r.alive := by rw [ha]; exact List.mem_cons_self a as
          have hat : r.thread = some a := (h1 a hmem).1
          have : a = t := by rw [hth] at hat; exact (Option.some_inj.mp hat).symm
          subst this
          have : as = [] := by
            have := h2
            rw [ha] at this
            simpa using List.length_eq_zero.mp (Nat.le_antisymm (Nat.le_of_succ_le_succ this) (Nat.zero_le _))
          subst this
          simp [List.erase_cons_head]

theorem runnerInv_stop (r : ExampleRunner) (h : RunnerInv r) :
    RunnerInv (r.stop true).1 := by
  have hnil := stop_alive_nil r h
  refine ⟨?_, ?_, ?_, ?_⟩
  · intro t ht; rw [hnil] at ht; cases ht
  · rw [hnil]; simp
  · intro _; rfl
  · intro _; exact hnil

theorem runnerInv_start (r : ExampleRunner) (name : String) (h : RunnerInv r) :
    RunnerInv (r.start name true).1 := by
  obtain ⟨h1, h2, h3, h4⟩ := h
  simp only [ExampleRunner.start]
  cases hr : r.running with
  | false =>
      have hth : r.thread = none := h3 hr
      have hal : r.alive = [] := h4 hth
      cases hl : lookupBehavior name with
      | some b =>
          refine ⟨?_, ?_, ?_, ?_⟩ <;> simp [hr, hl, hal]
      | none =>
          refine ⟨?_, ?_, ?_, ?_⟩ <;> simp [hr, hl, hal, hth]
  | true =>
      have hnil := stop_alive_nil r ⟨h1, h2, h3, h4⟩
      cases hl : lookupBehavior name with
      | some b =>
          refine ⟨?_, ?_, ?_, ?_⟩ <;>
            simp [ExampleRunner.start, hr, hl, hnil]
      | none =>
          refine ⟨?_, ?_, ?_, ?_⟩ <;>
            simp [ExampleRunner.start, hr, hl, hnil]

theorem runnerInv_execOp (r : ExampleRunner) (op : RunnerOp) (h : RunnerInv r)
    (hj : op.joinOk = true) : RunnerInv (execOp r op) := by
  cases op with
  | startOp name j =>
      have : j = true := hj
      subst this
      exact runnerInv_start r name h
  | stopOp j =>
      have : j = true := hj
      subst this
      exact runnerInv_stop r h

theorem runnerInv_foldl (ops : List RunnerOp) :
    ∀ r : ExampleRunner, RunnerInv r → (∀ op ∈ ops, op.joinOk = true) →
      RunnerInv (ops.foldl execOp r) := by
  induction ops with
  | nil => intro r h _; simpa using h
  | cons op tl ih =>
      intro r h hj
      simpa using ih (execOp r op)
        (runnerInv_execOp r op h (hj op (List.mem_cons_self op tl)))
        (fun o ho => hj o (List.mem_cons_of_mem op ho))

theorem runnerInv_execOps (ops : List RunnerOp)
    (hj : ∀ op ∈ ops, op.joinOk = true) : RunnerInv (execOps ops) :=
  runnerInv_foldl ops ExampleRunner.init runnerInv_init hj

theorem runnerWeakInv_execOp (r : ExampleRunner) (op : RunnerOp)
    (h : RunnerWeakInv r) : RunnerWeakInv (execOp r op) := by
  cases op with
  | stopOp j => intro _; rfl
  | startOp name j =>
      intro hrun
      cases hl : lookupBehavior name with
      | some b =>
          simp [execOp, ExampleRunner.start, hl] at hrun
      | none =>
          cases hr : r.running with
          | true => simp [execOp, ExampleRunner.start, hl, hr]
          | false =>
              simp only [execOp, ExampleRunner.start, hl, hr]
              simpa using h hr

theorem runnerWeakInv_foldl (ops : List RunnerOp) :
    ∀ r : ExampleRunner, RunnerWeakInv r → RunnerWeakInv (ops.foldl execOp r) := by
  induction ops with
  | nil => intro r h; simpa using h
  | cons op tl ih =>
      intro r h
      simpa using ih (execOp r op) (runnerWeakInv_execOp r op h)

theorem runnerWeakInv_execOps (ops : List RunnerOp) :
    RunnerWeakInv (execOps ops) :=
  runnerWeakInv_foldl ops ExampleRunner.init (fun _ => rfl)

/-- After a start, no task that was alive before the start is still alive:
the start either finds the runner idle (nothing was alive, by the
invariant) or stops the running task first, and the freshly spawned task
gets an identifier no earlier task carries. -/
theorem start_kills_old (r : ExampleRunner) (name : String) (t : Nat)
    (hinv : RunnerInv r) (ht : t ∈ r.alive) : t ∉ (r.start name true).1.alive := by
  obtain ⟨h1, h2, h3, h4⟩ := hinv
  have htlt : t < r.nextId := (h1 t ht).2
  have hrun : r.running = true := by
    cases hr : r.running with
    | true => rfl
    | false =>
        have : r.alive = [] := h4 (h3 hr)
        rw [this] at ht; cases ht
  have hnil := stop_alive_nil r ⟨h1, h2, h3, h4⟩
  cases hl : lookupBehavior name with
  | some b =>
      simp [ExampleRunner.start, hrun, hl, hnil]
      omega
  | none =>
      simp [ExampleRunner.start, hrun, hl, hnil]

/-- C1 counterexample: start("patrol") leaves worker 0 alive; a
start("rest") whose 2-second join times out (the patrol worker is blocked
without polling the flag) proceeds regardless and spawns worker 1, after
which both workers are alive at once - two behavior tasks overlap, so the
claim that the previous behavior is fully stopped before dispatch and the
old and new tasks never overlap is false on the code. -/
theorem start_timeout_tasks_overlap :
    ((execOps [RunnerOp.startOp "patrol" true]).start "rest" false).1.alive
        = [1, 0] ∧
    2 ≤ ((execOps [RunnerOp.startOp "patrol" true]).start "rest" false).1.alive.length := by
  decide

/-- C1 amended: provided every stop's bounded join succeeds (the outgoing
worker observes the cleared running flag within the 2-second timeout, as
cooperatively polling behaviors do), at most one behavior task is alive
at any instant, and a start issued while a task is alive removes that
task through the synchronous stop before the new task is dispatched, so
the old task is never alive after the start returns and the old and new
tasks never overlap; when a join times out the code proceeds regardless
and the two tasks can overlap. -/
theorem supervisor_exclusive (ops : List RunnerOp) (name : String) (t : Nat)
    (hjoins : ∀ op ∈ ops, op.joinOk = true)
    (h : t ∈ (execOps ops).alive) :
    (execOps ops).alive.length ≤ 1 ∧
      t ∉ ((execOps ops).start name true).1.alive :=
  ⟨(runnerInv_execOps ops hjoins).2.1,
   start_kills_old (execOps ops) name t (runnerInv_execOps ops hjoins) h⟩

/-- C1 witness: after starting patrol, task 0 is the only alive task and a
subsequent start of rest whose join succeeds leaves it dead. -/
theorem supervisor_exclusive_witness :
    (execOps [RunnerOp.startOp "patrol" true]).alive.length ≤ 1 ∧
      0 ∉ ((execOps [RunnerOp.startOp "patrol" true]).start "rest" true).1.alive :=
  supervisor_exclusive [RunnerOp.startOp "patrol" true] "rest" 0
    (by decide) (by decide)

/-- C2 counterexample: after start("patrol") the runner is running with
worker 0 alive; when the patrol body raises, the try/except boundary ends
the task (no task is alive any more) but the runner still reports
running = true, so the claim that the supervisor state is reset to
not-running (is_running() false afterwards) is false on the code. -/
theorem behavior_crash_leaves_running :
    ((((ExampleRunner.init.start "patrol" true).1).taskExit 0 (some "boom")).1).running
        = true ∧
    ((((ExampleRunner.init.start "patrol" true).1).taskExit 0 (some "boom")).1).alive
        = [] := by
  decide

/-- C2 amended: an exception raised inside a behavior is caught at the
behavior boundary and logged, terminates only that behavior's task (only
`tid` leaves the alive list), and never propagates out of the thread
function; but the supervisor state is NOT reset - `running`, `thread` and
`current_example` keep their previous values, so is_running() keeps
reporting true until the next stop or start. -/
theorem behavior_exception_contained (r : ExampleRunner) (tid : Nat) (msg : String) :
    (r.taskExit tid (some msg)).2.2 = false ∧
    (r.taskExit tid (some msg)).2.1 = ["Error: " ++ msg] ∧
    (r.taskExit tid (some msg)).1.alive = r.alive.erase tid ∧
    (r.taskExit tid (some msg)).1.running = r.running ∧
    (r.taskExit tid (some msg)).1.thread = r.thread ∧
    (r.taskExit tid (some msg)).1.current_example = r.current_example :=
  ⟨rfl, rfl, rfl, rfl, rfl, rfl⟩

/-- C3 counterexample: starting the unknown name xyz on the fresh runner
reports not-supported and leaves running false, but the supervisor state
is changed: current_example becomes xyz while it was none before the
call. -/
theorem start_unknown_changes_state :
    (ExampleRunner.init.start "xyz" true).2.1 = false ∧
    (ExampleRunner.init.start "xyz" true).1.current_example = some "xyz" ∧
    ExampleRunner.init.current_example = none ∧
    (ExampleRunner.init.start "xyz" true).1 ≠ ExampleRunner.init := by
  decide

/-- C3 amended: for a name that does not resolve, start reports
not-supported, leaves is_running() false, and records the requested name
in current_example - whatever the prior state and join outcome; when
moreover nothing was running, every field of the supervisor other than
current_example is unchanged. -/
theorem start_unknown_not_supported (r : ExampleRunner) (name : String)
    (j : Bool) (hnf : lookupBehavior name = none) :
    (r.start name j).2.1 = false ∧
    (r.start name j).1.running = false ∧
    (r.start name j).1.current_example = some name ∧
    (r.running = false →
      (r.start name j).1.thread = r.thread ∧
      (r.start name j).1.alive = r.alive ∧
      (r.start name j).1.nextId = r.nextId) := by
  cases hr : r.running <;> simp [ExampleRunner.start, hr, hnf]

/-- C3 amended witness: the fresh runner and the unknown name xyz. -/
theorem start_unknown_not_supported_witness :
    (ExampleRunner.init.start "xyz" true).2.1 = false ∧
    (ExampleRunner.init.start "xyz" true).1.running = false ∧
    (ExampleRunner.init.start "xyz" true).1.current_example = some "xyz" ∧
    (ExampleRunner.init.running = false →
      (ExampleRunner.init.start "xyz" true).1.thread = ExampleRunner.init.thread ∧
      (ExampleRunner.init.start "xyz" true).1.alive = ExampleRunner.init.alive ∧
      (ExampleRunner.init.start "xyz" true).1.nextId = ExampleRunner.init.nextId) :=
  start_unknown_not_supported ExampleRunner.init "xyz" true (by decide)

/-- C4 counterexample: after the single operation start("xyz") from the
initial state, the runner has running = false with current_example = xyz,
so the invariant clause running == false implies active_behavior == none
does not hold after every start operation. -/
theorem invariant_violated_after_unknown_start :
    (execOps [RunnerOp.startOp "xyz" true]).running = false ∧
    (execOps [RunnerOp.startOp "xyz" true]).current_example = some "xyz" := by
  decide

/-- C4 amended: after every sequence of start/stop operations from the
initial state, running == false implies the worker handle is none (for
every history, whatever the join outcomes); provided every join in the
history completed within its 2-second timeout, at most one worker task is
alive and running == false moreover implies no task is alive; the clause
running == false implies active_behavior == none does hold after every
stop, and after every start of a known name the runner is running with
that name active - only a start of an unknown name leaves running false
with the rejected name recorded in active_behavior; and when a join times
out the code proceeds regardless, so a history exists after which two
worker tasks are alive at once. -/
theorem supervisor_state_invariant_amended (ops : List RunnerOp) (name : String)
    (hfound : (lookupBehavior name).isSome = true)
    (hjoins : ∀ op ∈ ops, op.joinOk = true) :
    (∀ ops2 : List RunnerOp, (execOps ops2).running = false →
        (execOps ops2).thread = none) ∧
    (execOps ops).alive.length ≤ 1 ∧
    ((execOps ops).running = false → (execOps ops).alive = []) ∧
    (execOps (ops ++ [RunnerOp.stopOp true])).current_example = none ∧
    (execOps (ops ++ [RunnerOp.startOp name true])).running = true ∧
    (execOps (ops ++ [RunnerOp.startOp name true])).current_example = some name ∧
    (∃ ops3 : List RunnerOp, 2 ≤ (execOps ops3).alive.length) := by
  obtain ⟨h1, h2, h3, h4⟩ := runnerInv_execOps ops hjoins
  obtain ⟨b, hb⟩ := Option.isSome_iff_exists.mp hfound
  refine ⟨?_, h2, ?_, ?_, ?_, ?_, ?_⟩
  · intro ops2
    exact runnerWeakInv_execOps ops2
  · intro hrf
    exact h4 (h3 hrf)
  · simp [execOps, List.foldl_append, execOp]
  · simp [execOps, List.foldl_append, execOp, ExampleRunner.start, hb]
  · simp [execOps, List.foldl_append, execOp, ExampleRunner.start, hb]
  · exact ⟨[RunnerOp.startOp "patrol" true, RunnerOp.startOp "rest" false],
      by decide⟩

/-- C4 amended witness: the empty history and the known name patrol. -/
theorem supervisor_state_invariant_amended_witness :
    (∀ ops2 : List RunnerOp, (execOps ops2).running = false →
        (execOps ops2).thread = none) ∧
    (execOps []).alive.length ≤ 1 ∧
    ((execOps []).running = false → (execOps []).alive = []) ∧
    (execOps ([] ++ [RunnerOp.stopOp true])).current_example = none ∧
    (execOps ([] ++ [RunnerOp.startOp "patrol" true])).running = true ∧
    (execOps ([] ++ [RunnerOp.startOp "patrol" true])).current_example
        = some "patrol" ∧
    (∃ ops3 : List RunnerOp, 2 ≤ (execOps ops3).alive.length) :=
  supervisor_state_invariant_amended [] "patrol" (by decide) (by decide)

/-- C5: stop() is idempotent and safe when nothing is running: with no
active behavior it changes no field of the supervisor whatever the join
parameter (no worker is held, so the join is never reached; the model is
a total function, so no error is raised), it commands the robot into the
neutral resting pose (body_stop, neutral head_move, and the attempted
camera close), and stopping twice equals stopping once in every state
(the second stop holds no worker, so its join outcome is irrelevant). -/
theorem stop_idempotent_safe (r : ExampleRunner)
    (h1 : r.running = false) (h2 : r.thread = none)
    (h3 : r.current_example = none) :
    (∀ j : Bool, (r.stop j).1 = r) ∧
    (∀ j : Bool, (r.stop j).2
        = [RobotCmd.bodyStop, RobotCmd.headNeutral, RobotCmd.cameraClose]) ∧
    (∀ (s : ExampleRunner) (j j2 : Bool), ((s.stop j).1).stop j2 = s.stop j) := by
  refine ⟨?_, fun j => rfl, ?_⟩
  · intro j
    cases r with
    | mk running thread current alive nextId =>
        simp only at h1 h2 h3
        subst h1; subst h2; subst h3
        simp [ExampleRunner.stop]
  · intro s j j2
    rfl

/-- C5 witness: the fresh runner. -/
theorem stop_idempotent_safe_witness :
    (∀ j : Bool, (ExampleRunner.init.stop j).1 = ExampleRunner.init) ∧
    (∀ j : Bool, (ExampleRunner.init.stop j).2
        = [RobotCmd.bodyStop, RobotCmd.headNeutral, RobotCmd.cameraClose]) ∧
    (∀ (s : ExampleRunner) (j j2 : Bool), ((s.stop j).1).stop j2 = s.stop j) :=
  stop_idempotent_safe ExampleRunner.init rfl rfl rfl

theorem supermanUpdate_timers (s : KPState) (ax : Int) :
    (supermanUpdate s ax).stateTimer = s.stateTimer ∧
    (supermanUpdate s ax).lastDozeTime = s.lastDozeTime ∧
    (supermanUpdate s ax).lastSoundTime = s.lastSoundTime := by
  unfold supermanUpdate
  by_cases h1 : ax < -20000 <;> by_cases h2 : ax > -10000 <;>
  by_cases h3 : s.upflag = false <;> by_cases h4 : s.downflag = true <;>
  by_cases h5 : s.state = KState.superman <;>
  simp [h1, h2, h3, h4, h5]

theorem supermanUpdate_state_cases (s : KPState) (ax : Int) :
    (supermanUpdate s ax).state = s.state ∨
    (supermanUpdate s ax).state = KState.superman ∨
    (s.state = KState.superman ∧ (supermanUpdate s ax).state = KState.awake) := by
  unfold supermanUpdate
  by_cases h1 : ax < -20000 <;> by_cases h2 : ax > -10000 <;>
  by_cases h3 : s.upflag = false <;> by_cases h4 : s.downflag = true <;>
  by_cases h5 : s.state = KState.superman <;>
  simp [h1, h2, h3, h4, h5]

theorem stateLogic_flags (s : KPState) (i : KPInput) :
    (stateLogic s i).upflag = s.upflag ∧ (stateLogic s i).downflag = s.downflag := by
  simp only [stateLogic]
  split_ifs <;> simp

theorem superman_latch (s : KPState) (i : KPInput)
    (hs : s.state = KState.superman) (hax : -20000 ≤ i.ax) :
    (kidsPlayTick s i).state = KState.superman := by
  have hn : ¬ i.ax < -20000 := by omega
  unfold kidsPlayTick supermanUpdate
  by_cases h2 : i.ax > -10000 <;>
  by_cases h3 : s.upflag = true <;>
  by_cases h4 : s.downflag = false <;>
  simp [hn, h2, h3, h4, hs]

theorem superman_latch_fold (is : List KPInput) :
    ∀ s : KPState, s.state = KState.superman → (∀ i ∈ is, -20000 ≤ i.ax) →
      (is.foldl kidsPlayTick s).state = KState.superman := by
  induction is with
  | nil => intro s hs _; simpa using hs
  | cons i tl ih =>
      intro s hs h
      simp only [List.foldl_cons]
      exact ih (kidsPlayTick s i)
        (superman_latch s i hs (h i (List.mem_cons_self i tl)))
        (fun j hj => h j (List.mem_cons_of_mem i hj))

theorem supermanUpdate_arms_upflag (s : KPState) (ax : Int) (hax : ax < -20000) :
    (supermanUpdate s ax).upflag = true := by
  have h2 : ¬ ax > -10000 := by omega
  unfold supermanUpdate
  by_cases h3 : s.upflag = false <;> by_cases h4 : s.downflag = true <;>
  by_cases h5 : s.state = KState.superman <;>
  simp [hax, h2, h3, h4, h5]

theorem kidsPlayTick_upflag (s : KPState) (i : KPInput) :
    (kidsPlayTick s i).upflag = (supermanUpdate s i.ax).upflag := by
  simp only [kidsPlayTick]
  split_ifs <;>
    first
      | rfl
      | rw [(stateLogic_flags _ _).1]

theorem tick_arms_upflag (s : KPState) (i : KPInput) (hax : i.ax < -20000) :
    (kidsPlayTick s i).upflag = true := by
  rw [kidsPlayTick_upflag]
  exact supermanUpdate_arms_upflag s i.ax hax

/-- C6: the superman detector of the interactive-play state machine. Any
tick whose acceleration reading is below the lift threshold (-20000) arms
the lift flag; from AWAKE with clear flags, the synthetic sequence of a
below-lift-threshold reading followed by an above-drop-threshold reading
(with quiescent other sensors) transitions AWAKE to SUPERMAN and arms the
drop flag; a subsequent below-lift-threshold reading while the drop flag
is armed transitions SUPERMAN back to AWAKE; and when no later reading
crosses the lift threshold again, the state stays latched in SUPERMAN for
any further tick sequence. -/
theorem kids_play_superman_detector (s : KPState) (i : KPInput)
    (hax : i.ax < -20000) (is : List KPInput)
    (hlat : ∀ j ∈ is, -20000 ≤ j.ax) :
    (kidsPlayTick s i).upflag = true
    ∧ kidsPlayTick ⟨KState.awake, 0, 0, 0, false, false⟩ ⟨1, -25000, false, 0, 0⟩
        = ⟨KState.awake, 0, 0, 0, true, false⟩
    ∧ kidsPlayTick ⟨KState.awake, 0, 0, 0, true, false⟩ ⟨2, 0, false, 0, 0⟩
        = ⟨KState.superman, 0, 0, 0, false, true⟩
    ∧ (kidsPlayTick ⟨KState.superman, 0, 0, 0, false, true⟩
        ⟨3, -25000, false, 0, 0⟩).state = KState.awake
    ∧ (is.foldl kidsPlayTick ⟨KState.superman, 0, 0, 0, false, true⟩).state
        = KState.superman :=
  ⟨tick_arms_upflag s i hax, by decide, by decide, by decide,
   superman_latch_fold is ⟨KState.superman, 0, 0, 0, false, true⟩ rfl hlat⟩

/-- C6 witness: the first synthetic tick and a one-element latch
sequence. -/
theorem kids_play_superman_detector_witness :
    (kidsPlayTick ⟨KState.awake, 0, 0, 0, false, false⟩
        ⟨1, -25000, false, 0, 0⟩).upflag = true
    ∧ kidsPlayTick ⟨KState.awake, 0, 0, 0, false, false⟩ ⟨1, -25000, false, 0, 0⟩
        = ⟨KState.awake, 0, 0, 0, true, false⟩
    ∧ kidsPlayTick ⟨KState.awake, 0, 0, 0, true, false⟩ ⟨2, 0, false, 0, 0⟩
        = ⟨KState.superman, 0, 0, 0, false, true⟩
    ∧ (kidsPlayTick ⟨KState.superman, 0, 0, 0, false, true⟩
        ⟨3, -25000, false, 0, 0⟩).state = KState.awake
    ∧ (List.foldl kidsPlayTick ⟨KState.superman, 0, 0, 0, false, true⟩
        [⟨5, 0, false, 0, 0⟩]).state = KState.superman :=
  kids_play_superman_detector ⟨KState.awake, 0, 0, 0, false, false⟩
    ⟨1, -25000, false, 0, 0⟩ (by decide) [⟨5, 0, false, 0, 0⟩] (by decide)

theorem superman_fires (s : KPState) (ax : Int) (hup : s.upflag = true)
    (hax : -10000 < ax) (hns : s.state ≠ KState.superman) :
    (supermanUpdate s ax).state = KState.superman := by
  have hn : ¬ ax < -20000 := by omega
  unfold supermanUpdate
  by_cases h4 : s.downflag = false <;> simp [hn, hax, hup, hns, h4]

theorem stateLogic_awake_quiet (s : KPState) (i : KPInput)
    (hst : s.state = KState.awake)
    (hprox : ¬ (1 < i.distance ∧ i.distance < 10))
    (htouch : i.isTouched = false) (hsound : i.soundDir = 0) :
    stateLogic s i = s := by
  simp only [stateLogic]
  rw [hst]
  simp [hprox, htouch, hsound]

/-- C7: the superman detector is evaluated first on every tick and
short-circuits the rest of the loop; while the state is INTERACTING:
if the detector fires (armed lift flag and a reading above the drop
threshold) the tick ends in SUPERMAN whatever the other sensors say; if
the deadline has not elapsed, the tick either went to SUPERMAN through
the detector or stays in INTERACTING with the deadline and both
rate-limit timestamps untouched (no other trigger transition fires); and
when the deadline has elapsed (and the detector does not fire) the state
reverts to AWAKE and the rest of the tick is processed as AWAKE - in
particular with quiescent sensors the tick ends in AWAKE. -/
theorem kids_play_interacting_exclusive (s : KPState) (i : KPInput)
    (hst : s.state = KState.interacting) :
    (s.upflag = true → -10000 < i.ax →
        (kidsPlayTick s i).state = KState.superman)
    ∧ (¬ s.stateTimer < i.t →
        (kidsPlayTick s i).state = KState.superman ∨
        ((kidsPlayTick s i).state = KState.interacting ∧
         (kidsPlayTick s i).stateTimer = s.stateTimer ∧
         (kidsPlayTick s i).lastSoundTime = s.lastSoundTime ∧
         (kidsPlayTick s i).lastDozeTime = s.lastDozeTime))
    ∧ (s.stateTimer < i.t → ¬ (supermanUpdate s i.ax).state = KState.superman →
        kidsPlayTick s i
          = stateLogic { supermanUpdate s i.ax with state := KState.awake } i)
    ∧ (s.stateTimer < i.t → ¬ (supermanUpdate s i.ax).state = KState.superman →
        ¬ (1 < i.distance ∧ i.distance < 10) → i.isTouched = false →
        i.soundDir = 0 → (kidsPlayTick s i).state = KState.awake) := by
  obtain ⟨ht1, ht2, ht3⟩ := supermanUpdate_timers s i.ax
  have hfire : ∀ hsup : (supermanUpdate s i.ax).state = KState.superman,
      (kidsPlayTick s i).state = KState.superman := by
    intro hsup
    simp only [kidsPlayTick]
    rw [if_pos hsup]
    exact hsup
  have hint : ¬ (supermanUpdate s i.ax).state = KState.superman →
      (supermanUpdate s i.ax).state = KState.interacting := by
    intro hnsup
    rcases supermanUpdate_state_cases s i.ax with hc | hc | ⟨hc1, hc2⟩
    · rw [hc, hst]
    · exact absurd hc hnsup
    · rw [hst] at hc1; exact absurd hc1 (by decide)
  refine ⟨?_, ?_, ?_, ?_⟩
  · intro hup hax
    exact hfire (superman_fires s i.ax hup hax (by rw [hst]; decide))
  · intro hnd
    by_cases hsup : (supermanUpdate s i.ax).state = KState.superman
    · exact Or.inl (hfire hsup)
    · right
      have hi := hint hsup
      have hnlt : ¬ (supermanUpdate s i.ax).stateTimer < i.t := by
        rw [ht1]; exact hnd
      simp only [kidsPlayTick]
      rw [if_neg hsup, if_pos hi, if_neg hnlt]
      exact ⟨hi, ht1, ht3, ht2⟩
  · intro hlt hnsup
    have hi := hint hnsup
    have hlt2 : (supermanUpdate s i.ax).stateTimer < i.t := by
      rw [ht1]; exact hlt
    simp only [kidsPlayTick]
    rw [if_neg hnsup, if_pos hi, if_pos hlt2]
  · intro hlt hnsup hprox htouch hsound
    have heq : kidsPlayTick s i
        = stateLogic { supermanUpdate s i.ax with state := KState.awake } i := by
      have hi := hint hnsup
      have hlt2 : (supermanUpdate s i.ax).stateTimer < i.t := by
        rw [ht1]; exact hlt
      simp only [kidsPlayTick]
      rw [if_neg hnsup, if_pos hi, if_pos hlt2]
    rw [heq, stateLogic_awake_quiet _ i rfl hprox htouch hsound]

/-- C7 witness: an INTERACTING state whose deadline 10 has elapsed at time
20 with quiescent sensors reverts to AWAKE. -/
theorem kids_play_interacting_exclusive_witness :
    (kidsPlayTick ⟨KState.interacting, 10, 0, 0, false, false⟩
        ⟨20, 0, false, 0, 0⟩).state = KState.awake :=
  (kids_play_interacting_exclusive ⟨KState.interacting, 10, 0, 0, false, false⟩
      ⟨20, 0, false, 0, 0⟩ rfl).2.2.2 (by decide) (by decide) (by decide) rfl rfl

theorem stateLogic_distance_irrel (s : KPState) (i : KPInput)
    (hd : i.distance = 0) :
    stateLogic s i = stateLogic s { i with distance := 100 } := by
  have h1 : ¬ ((1:Rat) < i.distance ∧ i.distance < 10) := by
    rw [hd]; norm_num
  have h2 : ¬ ((1:Rat) < (100:Rat) ∧ (100:Rat) < 10) := by norm_num
  simp only [stateLogic]
  split_ifs <;>
    first
      | rfl
      | (exact absurd ‹_› h1)
      | (exact absurd ‹_› h2)

theorem kidsPlayTick_distance_irrel (s : KPState) (i : KPInput)
    (hd : i.distance = 0) :
    kidsPlayTick s i = kidsPlayTick s { i with distance := 100 } := by
  have e1 := stateLogic_distance_irrel (supermanUpdate s i.ax) i hd
  have e2 := stateLogic_distance_irrel
    { supermanUpdate s i.ax with state := KState.awake } i hd
  simp only [kidsPlayTick]
  by_cases h1 : (supermanUpdate s i.ax).state = KState.superman <;>
  by_cases h2 : (supermanUpdate s i.ax).state = KState.interacting <;>
  by_cases h3 : (supermanUpdate s i.ax).stateTimer < i.t <;>
  simp [h1, h2, h3, e1, e2]

/-- C8: a distance reading of exactly 0 never triggers a proximity-based
transition: the patrol danger test is false at 0 (DANGER mode needs
`distance > 0`), the response cycle never selects its back-away alert
branch at 0 (it needs `dist > 1`), and a kids_play tick with distance 0
is identical to the same tick with a far no-trigger reading (100 cm) -
zero behaves as no reading, not as contact. -/
theorem dist_zero_no_proximity (s : KPState) (i : KPInput) (touched : Bool)
    (hd : i.distance = 0) :
    patrolDangerCheck 0 = false
    ∧ responseBranch 0 touched ≠ RespBranch.alert
    ∧ kidsPlayTick s i = kidsPlayTick s { i with distance := 100 } := by
  refine ⟨by decide, ?_, kidsPlayTick_distance_irrel s i hd⟩
  cases touched <;> decide

/-- C8 witness: a SLEEP-state tick with a touch input and distance 0. -/
theorem dist_zero_no_proximity_witness :
    patrolDangerCheck 0 = false
    ∧ responseBranch 0 true ≠ RespBranch.alert
    ∧ kidsPlayTick ⟨KState.sleep, 0, 0, 0, false, false⟩
        ⟨1, 0, true, 0, 0⟩
      = kidsPlayTick ⟨KState.sleep, 0, 0, 0, false, false⟩
        { t := 1, ax := 0, isTouched := true, distance := 100, soundDir := 0 } :=
  dist_zero_no_proximity ⟨KState.sleep, 0, 0, 0, false, false⟩
    ⟨1, 0, true, 0, 0⟩ true rfl

/-- C9: from AWAKE, the kids_play triggers are evaluated in the fixed
priority proximity, then touch, then sound-with-cooldown (when the
superman detector leaves the tick state unchanged): a proximity reading
fires regardless of touch and sound and opens a 2.5-second interaction;
without proximity a touch opens a 2-second interaction without updating
the sound timestamp; without proximity and touch an audible sound fires
only when more than 2 seconds have passed since the last sound trigger,
opening a 2-second interaction and updating the timestamp; a sound inside
the 2-second cooldown changes nothing.  Concretely, two sound events one
second apart produce exactly one state transition: the first tick enters
INTERACTING and the second tick leaves the state identical. -/
theorem awake_priority_sound_cooldown (s : KPState) (i : KPInput)
    (hst : s.state = KState.awake) (hsm : supermanUpdate s i.ax = s) :
    ((1 < i.distance ∧ i.distance < 10) →
        kidsPlayTick s i
          = { s with state := KState.interacting, stateTimer := i.t + 5/2 })
    ∧ (¬ (1 < i.distance ∧ i.distance < 10) → i.isTouched = true →
        kidsPlayTick s i
          = { s with state := KState.interacting, stateTimer := i.t + 2 })
    ∧ (¬ (1 < i.distance ∧ i.distance < 10) → i.isTouched = false →
        i.soundDir ≠ 0 → 2 < i.t - s.lastSoundTime →
        kidsPlayTick s i
          = { s with state := KState.interacting, stateTimer := i.t + 2,
                     lastSoundTime := i.t })
    ∧ (¬ (1 < i.distance ∧ i.distance < 10) → i.isTouched = false →
        ¬ 2 < i.t - s.lastSoundTime → kidsPlayTick s i = s)
    ∧ kidsPlayTick ⟨KState.awake, 0, 0, 0, false, false⟩
        ⟨3, -15000, false, 0, 1⟩
      = ⟨KState.interacting, 5, 0, 3, false, false⟩
    ∧ kidsPlayTick ⟨KState.interacting, 5, 0, 3, false, false⟩
        ⟨4, -15000, false, 0, 1⟩
      = ⟨KState.interacting, 5, 0, 3, false, false⟩ := by
  have hbase : kidsPlayTick s i = stateLogic s i := by
    simp only [kidsPlayTick, hsm]
    rw [hst]
    simp
  have hsl : stateLogic s i
      = (if 1 < i.distance ∧ i.distance < 10 then
          { s with state := KState.interacting, stateTimer := i.t + 5/2 }
        else if i.isTouched = true then
          { s with state := KState.interacting, stateTimer := i.t + 2 }
        else if i.soundDir ≠ 0 ∧ 2 < i.t - s.lastSoundTime then
          { s with lastSoundTime := i.t, state := KState.interacting,
                   stateTimer := i.t + 2 }
        else s) := by
    simp only [stateLogic]
    rw [hst]
    simp
  refine ⟨?_, ?_, ?_, ?_,
    by norm_num [kidsPlayTick, supermanUpdate, stateLogic] <;> rfl,
    by norm_num [kidsPlayTick, supermanUpdate, stateLogic] <;> rfl⟩
  · intro hprox
    rw [hbase, hsl, if_pos hprox]
  · intro hprox htouch
    rw [hbase, hsl, if_neg hprox, if_pos htouch]
  · intro hprox htouch hsnd hcool
    rw [hbase, hsl, if_neg hprox, if_neg (by rw [htouch]; decide),
        if_pos ⟨hsnd, hcool⟩]
  · intro hprox htouch hcool
    rw [hbase, hsl, if_neg hprox, if_neg (by rw [htouch]; decide),
        if_neg (by intro hc; exact hcool hc.2)]

/-- C9 witness: an AWAKE state with a sound event inside the 2-second
cooldown window changes nothing. -/
theorem awake_priority_sound_cooldown_witness :
    kidsPlayTick ⟨KState.awake, 0, 0, 3, false, false⟩
      ⟨4, -15000, false, 0, 1⟩ = ⟨KState.awake, 0, 0, 3, false, false⟩ :=
  (awake_priority_sound_cooldown ⟨KState.awake, 0, 0, 3, false, false⟩
      ⟨4, -15000, false, 0, 1⟩ rfl (by decide)).2.2.2.1
    (by norm_num) rfl (by norm_num)

/-- C10 counterexample: the stream "garbage FFD9 FFD8 payload FFD9 more"
delivered as a single (final) chunk publishes no frame at all: the one
marker scan of that read finds the stray end marker before the start
marker, so the buffer is only truncated to the start marker, and the next
read hits end-of-stream and breaks the loop - latest_frame stays none and
the list of published frames is empty, not the claimed exactly-one
frame. -/
theorem frame_stream_single_chunk_no_frame :
    (camRun ⟨[], none⟩ [testStream]).2 = [] ∧
    (camRun ⟨[], none⟩ [testStream]).1.latest_frame = none ∧
    (camRun ⟨[], none⟩ [testStream]).1.bytes_buffer
      = [255, 216, 97, 98, 99, 255, 217, 109] := by
  decide

/-- C10 amended: per scan (the reader performs exactly one marker scan per
chunk read): when both markers are found with the start preceding the
end, the byte range from the start to two past the end is published as
the latest frame and consumed from the buffer; when the end marker
precedes the start marker, the buffer is truncated to begin at the start
marker and nothing is published that scan.  Consequently the stream
"garbage FFD9 FFD8 payload FFD9 more" yields exactly one published frame
equal to FFD8 payload FFD9 provided at least one further chunk read
follows the truncating scan (here one extra byte); delivered as a single
final chunk it yields no frame. -/
theorem camera_frame_extraction (st : CamState) (chunk : List Nat) (a b : Nat)
    (ha : findMarker 255 216 (st.bytes_buffer ++ chunk) = some a)
    (hb : findMarker 255 217 (st.bytes_buffer ++ chunk) = some b) :
    (a < b →
      camStep st chunk
        = ({ bytes_buffer := (st.bytes_buffer ++ chunk).drop (b + 2),
             latest_frame :=
               some (((st.bytes_buffer ++ chunk).drop a).take (b + 2 - a)) },
           some (((st.bytes_buffer ++ chunk).drop a).take (b + 2 - a))))
    ∧ (b < a →
      camStep st chunk
        = ({ bytes_buffer := (st.bytes_buffer ++ chunk).drop a,
             latest_frame := st.latest_frame }, none))
    ∧ (camRun ⟨[], none⟩ [testStream, [0]]).2
        = [[255, 216, 97, 98, 99, 255, 217]]
    ∧ (camRun ⟨[], none⟩ [testStream, [0]]).1.latest_frame
        = some [255, 216, 97, 98, 99, 255, 217] := by
  refine ⟨?_, ?_, by decide, by decide⟩
  · intro hab
    simp [camStep, ha, hb, hab]
  · intro hba
    have hnab : ¬ a < b := by omega
    simp [camStep, ha, hb, hnab]

/-- C10 amended witness: the test stream as the first chunk of a fresh
reader, whose start marker sits at index 4 and first end marker at index
2; the end-before-start scan only truncates. -/
theorem camera_frame_extraction_witness :
    (4 < 2 →
      camStep ⟨[], none⟩ testStream
        = ({ bytes_buffer := (([] : List Nat) ++ testStream).drop (2 + 2),
             latest_frame :=
               some (((([] : List Nat) ++ testStream).drop 4).take (2 + 2 - 4)) },
           some (((([] : List Nat) ++ testStream).drop 4).take (2 + 2 - 4))))
    ∧ (2 < 4 →
      camStep ⟨[], none⟩ testStream
        = ({ bytes_buffer := (([] : List Nat) ++ testStream).drop 4,
             latest_frame := none }, none))
    ∧ (camRun ⟨[], none⟩ [testStream, [0]]).2
        = [[255, 216, 97, 98, 99, 255, 217]]
    ∧ (camRun ⟨[], none⟩ [testStream, [0]]).1.latest_frame
        = some [255, 216, 97, 98, 99, 255, 217] :=
  camera_frame_extraction ⟨[], none⟩ testStream 4 2 (by decide) (by decide)
